import Mathlib

/-!
Verification of the calculator module (src/phase-1/src/main.py): a shallow
embedding of the `Calculator` class and the `_EvalVisitor` AST walker, with
theorems settling the specification's claims about them.

Modelling conventions:
* Python numbers are embedded exactly: `int` carries a mathematical integer,
  `float` carries the exact rational value of the host float (the idealisation
  used throughout: rounding/overflow of IEEE doubles is not modelled).
  A host float whose exact value the model does not track (an irrational
  result of `**` or `math.sqrt`) is the opaque marker `floatX`; a complex
  number (produced only by `**` on a negative base with fractional exponent)
  is the opaque marker `complex`.  Operations on the opaque markers pick a
  fixed branch (markers are treated as nonzero); no claim exercises them.
* Python `bool` is a subtype of `int` with values 1/0, so a boolean constant
  evaluates to the corresponding `int` (`_EvalVisitor.visit_Constant` lets it
  through its `isinstance(node.value, (int, float))` check).
* The module's structured failure signal is `ValueError` (`PyError.valueError`);
  exceptions raised by the host's numeric operators themselves
  (`ZeroDivisionError`, `TypeError`) propagate uncaught and are embedded as
  `PyError.hostError`.
* `ast.parse(expr, mode="eval")` is host functionality, not repository code;
  `evaluate` therefore takes the outcome of parsing (`Except String Expr`,
  an error being a host `SyntaxError`), and concrete input strings appear as
  their well-known parse trees.  The `Expression` wrapper node is implicit:
  `visit_Expression` just visits the body, so `evaluate` visits the body tree.
-/

namespace Calc

/-- Python runtime values reachable in this module (ints, floats, complex). -/
inductive PyVal where
  | int (n : ℤ)
  | float (q : ℚ)
  | floatX
  | complex
deriving DecidableEq, Repr

/-- Exceptions raised by the host's numeric operators (not by module code). -/
inductive HostError where
  | zeroDivisionError (msg : String)
  | typeError (msg : String)
deriving DecidableEq, Repr

/-- Failures observable from the module: `valueError` is the structured signal
every `raise ValueError(...)` in main.py produces; `hostError` is an uncaught
host exception propagating through module code. -/
inductive PyError where
  | valueError (msg : String)
  | hostError (e : HostError)
deriving DecidableEq, Repr

/-- Python `==` against the int 0, as used by `Calculator.divide`'s guard and
by the host operators' zero tests (numeric equality; opaque markers are
treated as nonzero). -/
def isZeroVal : PyVal → Bool
  | .int n => n = 0
  | .float q => q = 0
  | .floatX => false
  | .complex => false

/-- Host `+` on numbers (`operator.add`, also `a + b` in `Calculator.add`). -/
def pyAdd : PyVal → PyVal → PyVal
  | .complex, _ => .complex
  | _, .complex => .complex
  | .floatX, _ => .floatX
  | _, .floatX => .floatX
  | .int a, .int b => .int (a + b)
  | .int a, .float b => .float ((a : ℚ) + b)
  | .float a, .int b => .float (a + (b : ℚ))
  | .float a, .float b => .float (a + b)

/-- Host `-` on numbers (`operator.sub`, also `a - b` in `Calculator.subtract`). -/
def pySub : PyVal → PyVal → PyVal
  | .complex, _ => .complex
  | _, .complex => .complex
  | .floatX, _ => .floatX
  | _, .floatX => .floatX
  | .int a, .int b => .int (a - b)
  | .int a, .float b => .float ((a : ℚ) - b)
  | .float a, .int b => .float (a - (b : ℚ))
  | .float a, .float b => .float (a - b)

/-- Host `*` on numbers (`operator.mul`, also `a * b` in `Calculator.multiply`). -/
def pyMul : PyVal → PyVal → PyVal
  | .complex, _ => .complex
  | _, .complex => .complex
  | .floatX, _ => .floatX
  | _, .floatX => .floatX
  | .int a, .int b => .int (a * b)
  | .int a, .float b => .float ((a : ℚ) * b)
  | .float a, .int b => .float (a * (b : ℚ))
  | .float a, .float b => .float (a * b)

/-- Value of host true division when the divisor is nonzero: int/int already
yields a float in Python 3. -/
def divVal : PyVal → PyVal → PyVal
  | .complex, _ => .complex
  | _, .complex => .complex
  | .floatX, _ => .floatX
  | _, .floatX => .floatX
  | .int a, .int b => .float ((a : ℚ) / (b : ℚ))
  | .int a, .float b => .float ((a : ℚ) / b)
  | .float a, .int b => .float (a / (b : ℚ))
  | .float a, .float b => .float (a / b)

/-- Message of the `ZeroDivisionError` raised by host `/`. -/
def truedivZeroMsg : PyVal → PyVal → String
  | .int _, .int _ => "division by zero"
  | .complex, _ => "complex division by zero"
  | _, _ => "float division by zero"

/-- Host `/` (`operator.truediv`): raises `ZeroDivisionError` when the right
operand equals zero. -/
def pyDiv (a b : PyVal) : Except HostError PyVal :=
  if isZeroVal b then .error (.zeroDivisionError (truedivZeroMsg a b))
  else .ok (divVal a b)

/-- Value of host floor division when the divisor is nonzero: int//int is an
int, otherwise a float with value `⌊a / b⌋`. -/
def floorDivVal : PyVal → PyVal → PyVal
  | .floatX, _ => .floatX
  | _, .floatX => .floatX
  | .int a, .int b => .int (Int.fdiv a b)
  | .int a, .float b => .float ((⌊(a : ℚ) / b⌋ : ℤ) : ℚ)
  | .float a, .int b => .float ((⌊a / (b : ℚ)⌋ : ℤ) : ℚ)
  | .float a, .float b => .float ((⌊a / b⌋ : ℤ) : ℚ)
  | v, _ => v

/-- Message of the `ZeroDivisionError` raised by host `//`. -/
def floordivZeroMsg : PyVal → PyVal → String
  | .int _, .int _ => "integer division or modulo by zero"
  | _, _ => "float floor division by zero"

/-- Host `//` (`operator.floordiv`): `TypeError` on complex operands,
`ZeroDivisionError` on a zero divisor. -/
def pyFloorDiv (a b : PyVal) : Except HostError PyVal :=
  match a, b with
  | .complex, _ => .error (.typeError "unsupported operand type(s) for //")
  | _, .complex => .error (.typeError "unsupported operand type(s) for //")
  | _, _ =>
    if isZeroVal b then .error (.zeroDivisionError (floordivZeroMsg a b))
    else .ok (floorDivVal a b)

/-- Value of host `%` when the divisor is nonzero: Python's remainder takes
the sign of the divisor (floor modulo, `Int.fmod`). -/
def modVal : PyVal → PyVal → PyVal
  | .floatX, _ => .floatX
  | _, .floatX => .floatX
  | .int a, .int b => .int (Int.fmod a b)
  | .int a, .float b => .float ((a : ℚ) - b * ((⌊(a : ℚ) / b⌋ : ℤ) : ℚ))
  | .float a, .int b => .float (a - (b : ℚ) * ((⌊a / (b : ℚ)⌋ : ℤ) : ℚ))
  | .float a, .float b => .float (a - b * ((⌊a / b⌋ : ℤ) : ℚ))
  | v, _ => v

/-- Message of the `ZeroDivisionError` raised by host `%`. -/
def modZeroMsg : PyVal → PyVal → String
  | .int _, .int _ => "integer division or modulo by zero"
  | _, _ => "float modulo"

/-- Host `%` (`operator.mod`): `TypeError` on complex operands,
`ZeroDivisionError` on a zero divisor. -/
def pyMod (a b : PyVal) : Except HostError PyVal :=
  match a, b with
  | .complex, _ => .error (.typeError "unsupported operand type(s) for %")
  | _, .complex => .error (.typeError "unsupported operand type(s) for %")
  | _, _ =>
    if isZeroVal b then .error (.zeroDivisionError (modZeroMsg a b))
    else .ok (modVal a b)

/-- Host `**` with a tracked float base and an opaque (positive) exponent. -/
def powUntrackedExp (a : ℚ) : Except HostError PyVal :=
  if a < 0 then .ok .complex
  else if a = 0 then .ok (.float 0)
  else .ok .floatX

/-- Host `**` on float operands with tracked rational values: an integral
exponent is computed exactly; a fractional exponent yields a complex number
for a negative base and an untracked positive float otherwise. -/
def floatPow (a e : ℚ) : Except HostError PyVal :=
  if e.den = 1 then
    if a = 0 ∧ e.num < 0 then
      .error (.zeroDivisionError "0.0 cannot be raised to a negative power")
    else .ok (.float (a ^ e.num))
  else if a < 0 then .ok .complex
  else if a = 0 then
    if e < 0 then .error (.zeroDivisionError "0.0 cannot be raised to a negative power")
    else .ok (.float 0)
  else .ok .floatX

/-- Host `**` (`operator.pow`, also `a**b` in `Calculator.power`): never raises
`ValueError`; its only failure is the host `ZeroDivisionError` on a zero base
with negative exponent.  A negative base with fractional exponent returns a
complex number (Python 3), not an error. -/
def pyPow : PyVal → PyVal → Except HostError PyVal
  | .complex, _ => .ok .complex
  | _, .complex => .ok .complex
  | .floatX, _ => .ok .floatX
  | .int a, .floatX => powUntrackedExp (a : ℚ)
  | .float a, .floatX => powUntrackedExp a
  | .int a, .int e =>
    if 0 ≤ e then .ok (.int (a ^ e.toNat))
    else if a = 0 then
      .error (.zeroDivisionError "0.0 cannot be raised to a negative power")
    else .ok (.float ((a : ℚ) ^ e))
  | .int a, .float e => floatPow (a : ℚ) e
  | .float a, .int e =>
    if a = 0 ∧ e < 0 then
      .error (.zeroDivisionError "0.0 cannot be raised to a negative power")
    else .ok (.float (a ^ e))
  | .float a, .float e => floatPow a e

/-- Host unary `-` (the `lambda x: -x` entry of `_EvalVisitor._unary_ops`). -/
def pyNeg : PyVal → PyVal
  | .int n => .int (-n)
  | .float q => .float (-q)
  | .floatX => .floatX
  | .complex => .complex

/-- Binary operator kinds of the host AST (`ast.Add`, `ast.Sub`, ...),
including kinds outside `_EvalVisitor._operators`. -/
inductive BinOpKind where
  | add | sub | mult | div | pow | floorDiv | mod
  | lshift | rshift | bitOr | bitXor | bitAnd | matMult
deriving DecidableEq, Repr

/-- Python class name of a binary operator node, as interpolated into the
message `"Unsupported operator: ..."`. -/
def binOpClassName : BinOpKind → String
  | .add => "Add"
  | .sub => "Sub"
  | .mult => "Mult"
  | .div => "Div"
  | .pow => "Pow"
  | .floorDiv => "FloorDiv"
  | .mod => "Mod"
  | .lshift => "LShift"
  | .rshift => "RShift"
  | .bitOr => "BitOr"
  | .bitXor => "BitXor"
  | .bitAnd => "BitAnd"
  | .matMult => "MatMult"

/-- Unary operator kinds of the host AST, including kinds outside
`_EvalVisitor._unary_ops`. -/
inductive UnaryOpKind where
  | uadd | usub | unot | invert
deriving DecidableEq, Repr

/-- Python class name of a unary operator node. -/
def unaryOpClassName : UnaryOpKind → String
  | .uadd => "UAdd"
  | .usub => "USub"
  | .unot => "Not"
  | .invert => "Invert"

/-- Constant payloads the host parser can place in an `ast.Constant` node. -/
inductive Const where
  | intC (n : ℤ)
  | floatC (q : ℚ)
  | boolC (b : Bool)
  | strC (s : String)
  | bytesC (s : String)
  | noneC
  | ellipsisC
  | complexC (re im : ℚ)
deriving DecidableEq, Repr

/-- The fragment of the host expression AST (Python 3.8+, where numeric
literals parse to `ast.Constant`) that `_EvalVisitor.visit` dispatches on:
the allow-listed node kinds plus the disallowed kinds the spec names. -/
inductive Expr where
  | binOp (op : BinOpKind) (left right : Expr)
  | unaryOp (op : UnaryOpKind) (operand : Expr)
  | constant (c : Const)
  | name (id : String)
  | call (func : Expr) (args : List Expr)
  | attributeRef (value : Expr) (attr : String)
  | subscript (value index : Expr)
  | compare (left right : Expr)
  | boolOp (values : List Expr)
  | listLit (elts : List Expr)
  | tupleLit (elts : List Expr)
  | dictLit
  | setLit (elts : List Expr)
  | ifExp (test body orelse : Expr)
  | lambdaE (body : Expr)

/-- Python class name of an AST node, as interpolated into the message
`"Unsupported expression element: ..."` by `_EvalVisitor.visit`. -/
def className : Expr → String
  | .binOp .. => "BinOp"
  | .unaryOp .. => "UnaryOp"
  | .constant _ => "Constant"
  | .name _ => "Name"
  | .call .. => "Call"
  | .attributeRef .. => "Attribute"
  | .subscript .. => "Subscript"
  | .compare .. => "Compare"
  | .boolOp _ => "BoolOp"
  | .listLit _ => "List"
  | .tupleLit _ => "Tuple"
  | .dictLit => "Dict"
  | .setLit _ => "Set"
  | .ifExp .. => "IfExp"
  | .lambdaE _ => "Lambda"

/-- The `_EvalVisitor._operators` dictionary (lines 37-45): the seven allowed
binary operators; lookup fails for every other kind. -/
def binOps : BinOpKind → Option (PyVal → PyVal → Except HostError PyVal)
  | .add => some (fun a b => .ok (pyAdd a b))
  | .sub => some (fun a b => .ok (pySub a b))
  | .mult => some (fun a b => .ok (pyMul a b))
  | .div => some pyDiv
  | .pow => some pyPow
  | .floorDiv => some pyFloorDiv
  | .mod => some pyMod
  | _ => none

/-- The `_EvalVisitor._unary_ops` dictionary (line 47): unary plus is the
identity, unary minus negates; lookup fails for `Not` and `Invert`. -/
def unaryOps : UnaryOpKind → Option (PyVal → PyVal)
  | .uadd => some (fun x => x)
  | .usub => some pyNeg
  | _ => none

/-- The visitor `_EvalVisitor.visit` (lines 49-82).  Dispatch is by node class
name: only `BinOp`, `UnaryOp` and `Constant` have handlers (plus the
`Expression` wrapper, implicit here); every other node kind falls through to
`ValueError("Unsupported expression element: ...")`.  `visit_BinOp` evaluates
the left operand, then the right operand, then looks the operator up;
`visit_UnaryOp` evaluates the operand before the lookup.  `visit_Constant`
admits `int` and `float` payloads — and `bool`, an int subtype — and rejects
every other constant. -/
def visit : Expr → Except PyError PyVal
  | .binOp op l r =>
    match visit l with
    | .error e => .error e
    | .ok lv =>
      match visit r with
      | .error e => .error e
      | .ok rv =>
        match binOps op with
        | none => .error (.valueError ("Unsupported operator: " ++ binOpClassName op))
        | some f =>
          match f lv rv with
          | .error he => .error (.hostError he)
          | .ok v => .ok v
  | .unaryOp op e =>
    match visit e with
    | .error err => .error err
    | .ok v =>
      match unaryOps op with
      | none => .error (.valueError ("Unsupported unary operator: " ++ unaryOpClassName op))
      | some f => .ok (f v)
  | .constant c =>
    match c with
    | .intC n => .ok (.int n)
    | .floatC q => .ok (.float q)
    | .boolC b => .ok (.int (if b then 1 else 0))
    | _ => .error (.valueError "Only numeric constants are allowed")
  | t => .error (.valueError ("Unsupported expression element: " ++ className t))

namespace Calculator

/-- Method `Calculator.add` (lines 88-89). -/
def add (a b : PyVal) : PyVal := pyAdd a b

/-- Method `Calculator.subtract` (lines 91-92). -/
def subtract (a b : PyVal) : PyVal := pySub a b

/-- Method `Calculator.multiply` (lines 94-95). -/
def multiply (a b : PyVal) : PyVal := pyMul a b

/-- Method `Calculator.divide` (lines 97-100): `raise ValueError("division by
zero")` when `b == 0`, otherwise `a / b` (which cannot itself raise, being
guarded). -/
def divide (a b : PyVal) : Except PyError PyVal :=
  if isZeroVal b then .error (.valueError "division by zero")
  else .ok (divVal a b)

/-- Method `Calculator.power` (lines 102-103): `a**b` with no guard; a host
exception from `**` propagates to the caller. -/
def power (a b : PyVal) : Except PyError PyVal :=
  match pyPow a b with
  | .error he => .error (.hostError he)
  | .ok v => .ok v

/-- Largest candidate `k` at most the second argument with `k * k ≤ n`,
by downward search (a structurally recursive integer square root). -/
def sqrtBelow : ℕ → ℕ → ℕ
  | _, 0 => 0
  | n, (k + 1) => if (k + 1) * (k + 1) ≤ n then k + 1 else sqrtBelow n k

/-- Integer square root used by the model's exact-root test. -/
def isqrt (n : ℕ) : ℕ := sqrtBelow n n

/-- Exact rational square root, when one exists (the case in which the model
tracks the value `math.sqrt` returns). -/
def ratSqrt? (q : ℚ) : Option ℚ :=
  if isqrt q.num.toNat * isqrt q.num.toNat = q.num.toNat ∧
      isqrt q.den * isqrt q.den = q.den
  then some (mkRat (isqrt q.num.toNat : ℤ) (isqrt q.den))
  else none

/-- Value of `math.sqrt` on a non-negative number: a float, tracked exactly
when the true square root is rational. -/
def mathSqrt : PyVal → PyVal
  | .int n => match ratSqrt? (n : ℚ) with | some r => .float r | none => .floatX
  | .float q => match ratSqrt? q with | some r => .float r | none => .floatX
  | v => v

/-- Python `a < 0` as used by `Calculator.sqrt`'s guard: defined for real
operands; a complex operand raises `TypeError`. -/
def ltZero? : PyVal → Option Bool
  | .int n => some (decide (n < 0))
  | .float q => some (decide (q < 0))
  | .floatX => some false
  | .complex => none

/-- Method `Calculator.sqrt` (lines 105-108): `raise ValueError("square root
of negative number")` when `a < 0`, otherwise `math.sqrt(a)`. -/
def sqrt (a : PyVal) : Except PyError PyVal :=
  match ltZero? a with
  | none => .error (.hostError (.typeError "complex cannot be compared with int"))
  | some true => .error (.valueError "square root of negative number")
  | some false => .ok (mathSqrt a)

/-- Method `Calculator.evaluate` (lines 110-124), taking the outcome of
`ast.parse(expr, mode="eval")`: a host `SyntaxError` is converted to
`ValueError("invalid expression")`; otherwise the tree is visited, the
result must be an `int` or `float` (`isinstance` check, which a complex
value fails), and is finally converted with `float(...)`. -/
def evaluate (parsed : Except String Expr) : Except PyError PyVal :=
  match parsed with
  | .error _ => .error (.valueError "invalid expression")
  | .ok tree =>
    match visit tree with
    | .error e => .error e
    | .ok v =>
      match v with
      | .int n => .ok (.float (n : ℚ))
      | .float q => .ok (.float q)
      | .floatX => .ok .floatX
      | .complex => .error (.valueError "expression did not produce a numeric result")

end Calculator

/-- Parse tree of `"1/0"`. -/
def exprOneDivZero : Expr :=
  .binOp .div (.constant (.intC 1)) (.constant (.intC 0))

/-- Parse tree of `"7 // 2"`. -/
def exprSevenFloorTwo : Expr :=
  .binOp .floorDiv (.constant (.intC 7)) (.constant (.intC 2))

/-- Parse tree of `"5 % 3"`. -/
def exprFiveModThree : Expr :=
  .binOp .mod (.constant (.intC 5)) (.constant (.intC 3))

/-- Parse tree of `"2 ** 10"`. -/
def exprTwoPowTen : Expr :=
  .binOp .pow (.constant (.intC 2)) (.constant (.intC 10))

/-- Parse tree of `"True + True"`. -/
def exprTruePlusTrue : Expr :=
  .binOp .add (.constant (.boolC true)) (.constant (.boolC true))

/-- Parse tree of `"__import__('os').system('echo no')"`. -/
def exprImportAttack : Expr :=
  .call
    (.attributeRef (.call (.name "__import__") [.constant (.strC "os")]) "system")
    [.constant (.strC "echo no")]

/-- Parse tree of `"1/0 + x"`. -/
def exprDivZeroPlusName : Expr :=
  .binOp .add exprOneDivZero (.name "x")

/-- Spec-side predicate: the tree contains one of the disallowed constructs
named by the rejection property (name reference, function call, attribute
access, string literal, boolean or comparison operator, collection literal —
plus the other non-allow-listed node kinds, subscripts, conditional
expressions and lambdas, which the spec also rejects).  Only the allow-listed
kinds (`BinOp`, `UnaryOp`, numeric `Constant`) recurse. -/
def containsDisallowed : Expr → Bool
  | .binOp _ l r => containsDisallowed l || containsDisallowed r
  | .unaryOp _ e => containsDisallowed e
  | .constant c =>
    match c with
    | .strC _ => true
    | _ => false
  | _ => true

/-- Test that a value is a host float (an exactly-tracked or opaque one). -/
def isFloatVal : PyVal → Bool
  | .float _ => true
  | .floatX => true
  | _ => false

/-- Test for the module's structured failure signal (`ValueError`). -/
def isValueError : PyError → Bool
  | .valueError _ => true
  | .hostError _ => false

/-- The `UnsupportedExpressionError` failure kind: a structured `ValueError`
carrying one of the allow-list rejection messages (unsupported node kind,
unsupported binary or unary operator, or non-numeric literal). -/
def UnsupportedExprKind (e : PyError) : Prop :=
  e = .valueError "Only numeric constants are allowed" ∨
  (∃ s, e = .valueError ("Unsupported expression element: " ++ s)) ∨
  (∃ s, e = .valueError ("Unsupported operator: " ++ s)) ∨
  (∃ s, e = .valueError ("Unsupported unary operator: " ++ s))

/-- Classification of every error `_EvalVisitor.visit` can produce: either an
uncaught host exception from an operator, or a `ValueError` carrying one of
the visitor's own messages. -/
def VisitErrShape (e : PyError) : Prop :=
  (∃ h, e = .hostError h) ∨
  e = .valueError "Only numeric constants are allowed" ∨
  (∃ s, e = .valueError ("Unsupported expression element: " ++ s)) ∨
  (∃ s, e = .valueError ("Unsupported operator: " ++ s)) ∨
  (∃ s, e = .valueError ("Unsupported unary operator: " ++ s))

/-- Decidable equality of `Except` results, so that concrete runs of the
embedded functions can be checked by `decide`. -/
def exceptDecEq {ε α : Type} [DecidableEq ε] [DecidableEq α] :
    DecidableEq (Except ε α) := fun x y =>
  match x, y with
  | .ok a, .ok b =>
    if h : a = b then isTrue (h ▸ rfl) else isFalse (fun he => h (Except.ok.inj he))
  | .ok _, .error _ => isFalse (fun h => Except.noConfusion h)
  | .error _, .ok _ => isFalse (fun h => Except.noConfusion h)
  | .error a, .error b =>
    if h : a = b then isTrue (h ▸ rfl) else isFalse (fun he => h (Except.error.inj he))

instance {ε α : Type} [DecidableEq ε] [DecidableEq α] : DecidableEq (Except ε α) :=
  exceptDecEq

/-- Evaluation of a tree that succeeds visited only allow-listed constructs:
if the visitor returns a value, the tree contains no disallowed node. -/
theorem visit_ok_not_disallowed :
    ∀ (t : Expr) (v : PyVal), visit t = Except.ok v → containsDisallowed t = false
  | .binOp op l r, v, h => by
    simp only [visit] at h
    cases hl : visit l with
    | error e => rw [hl] at h; exact absurd h (by simp)
    | ok lv =>
      rw [hl] at h
      cases hr : visit r with
      | error e => rw [hr] at h; exact absurd h (by simp)
      | ok rv =>
        have ihl := visit_ok_not_disallowed l lv hl
        have ihr := visit_ok_not_disallowed r rv hr
        simp [containsDisallowed, ihl, ihr]
  | .unaryOp op e, v, h => by
    simp only [visit] at h
    cases he : visit e with
    | error err => rw [he] at h; exact absurd h (by simp)
    | ok ev =>
      have ih := visit_ok_not_disallowed e ev he
      simp [containsDisallowed, ih]
  | .constant c, v, h => by
    cases c <;> simp_all [visit, containsDisallowed]
  | .name i, v, h => by simp [visit] at h
  | .call f args, v, h => by simp [visit] at h
  | .attributeRef x a, v, h => by simp [visit] at h
  | .subscript x i, v, h => by simp [visit] at h
  | .compare l r, v, h => by simp [visit] at h
  | .boolOp vs, v, h => by simp [visit] at h
  | .listLit es, v, h => by simp [visit] at h
  | .tupleLit es, v, h => by simp [visit] at h
  | .dictLit, v, h => by simp [visit] at h
  | .setLit es, v, h => by simp [visit] at h
  | .ifExp a b c, v, h => by simp [visit] at h
  | .lambdaE b, v, h => by simp [visit] at h

/-- Classification lemma: every error produced by the visitor is a host
exception or a `ValueError` with one of the visitor's messages. -/
theorem visit_error_shape :
    ∀ (t : Expr) (e : PyError), visit t = Except.error e → VisitErrShape e
  | .binOp op l r, e, h => by
    cases hl : visit l with
    | error e' =>
      have hv : visit (.binOp op l r) = .error e' := by simp [visit, hl]
      rw [hv] at h
      exact (Except.error.inj h) ▸ visit_error_shape l e' hl
    | ok lv =>
      cases hr : visit r with
      | error e' =>
        have hv : visit (.binOp op l r) = .error e' := by simp [visit, hl, hr]
        rw [hv] at h
        exact (Except.error.inj h) ▸ visit_error_shape r e' hr
      | ok rv =>
        cases hb : binOps op with
        | none =>
          have hv : visit (.binOp op l r) =
              .error (.valueError ("Unsupported operator: " ++ binOpClassName op)) := by
            simp [visit, hl, hr, hb]
          rw [hv] at h
          exact Or.inr (Or.inr (Or.inr (Or.inl ⟨_, (Except.error.inj h).symm⟩)))
        | some f =>
          cases hf : f lv rv with
          | error he =>
            have hv : visit (.binOp op l r) = .error (.hostError he) := by
              simp [visit, hl, hr, hb, hf]
            rw [hv] at h
            exact Or.inl ⟨_, (Except.error.inj h).symm⟩
          | ok w =>
            have hv : visit (.binOp op l r) = .ok w := by
              simp [visit, hl, hr, hb, hf]
            rw [hv] at h
            exact absurd h (by simp)
  | .unaryOp op x, e, h => by
    simp only [visit] at h
    cases hx : visit x with
    | error e' =>
      rw [hx] at h; simp at h
      exact h ▸ visit_error_shape x e' hx
    | ok xv =>
      rw [hx] at h
      cases hu : unaryOps op with
      | none =>
        rw [hu] at h; simp at h
        exact Or.inr (Or.inr (Or.inr (Or.inr ⟨_, h.symm⟩)))
      | some f => rw [hu] at h; exact absurd h (by simp)
  | .constant c, e, h => by
    cases c <;> simp [visit] at h <;> exact Or.inr (Or.inl h.symm)
  | .name i, e, h => by
    simp only [visit] at h; simp at h
    exact Or.inr (Or.inr (Or.inl ⟨_, h.symm⟩))
  | .call f args, e, h => by
    simp only [visit] at h; simp at h
    exact Or.inr (Or.inr (Or.inl ⟨_, h.symm⟩))
  | .attributeRef x a, e, h => by
    simp only [visit] at h; simp at h
    exact Or.inr (Or.inr (Or.inl ⟨_, h.symm⟩))
  | .subscript x i, e, h => by
    simp only [visit] at h; simp at h
    exact Or.inr (Or.inr (Or.inl ⟨_, h.symm⟩))
  | .compare l r, e, h => by
    simp only [visit] at h; simp at h
    exact Or.inr (Or.inr (Or.inl ⟨_, h.symm⟩))
  | .boolOp vs, e, h => by
    simp only [visit] at h; simp at h
    exact Or.inr (Or.inr (Or.inl ⟨_, h.symm⟩))
  | .listLit es, e, h => by
    simp only [visit] at h; simp at h
    exact Or.inr (Or.inr (Or.inl ⟨_, h.symm⟩))
  | .tupleLit es, e, h => by
    simp only [visit] at h; simp at h
    exact Or.inr (Or.inr (Or.inl ⟨_, h.symm⟩))
  | .dictLit, e, h => by
    simp only [visit] at h; simp at h
    exact Or.inr (Or.inr (Or.inl ⟨_, h.symm⟩))
  | .setLit es, e, h => by
    simp only [visit] at h; simp at h
    exact Or.inr (Or.inr (Or.inl ⟨_, h.symm⟩))
  | .ifExp a b c, e, h => by
    simp only [visit] at h; simp at h
    exact Or.inr (Or.inr (Or.inl ⟨_, h.symm⟩))
  | .lambdaE b, e, h => by
    simp only [visit] at h; simp at h
    exact Or.inr (Or.inr (Or.inl ⟨_, h.symm⟩))

/-- Correctness of the exact-square-root test: when it returns a value, that
value is the non-negative square root. -/
theorem ratSqrt_spec (q : ℚ) (hq : 0 ≤ q) (r : ℚ)
    (h : Calculator.ratSqrt? q = some r) : 0 ≤ r ∧ r * r = q := by
  unfold Calculator.ratSqrt? at h
  split_ifs at h with hc
  obtain ⟨h1, h2⟩ := hc
  have hr : mkRat (Calculator.isqrt q.num.toNat : ℤ) (Calculator.isqrt q.den) = r :=
    Option.some.inj h
  subst hr
  rw [Rat.mkRat_eq_div]
  have hdnz : q.den ≠ 0 := q.den_nz
  have hsd : (Calculator.isqrt q.den : ℚ) ≠ 0 := by
    rw [Nat.cast_ne_zero]
    intro h0
    rw [h0, Nat.mul_zero] at h2
    exact hdnz h2.symm
  push_cast
  refine ⟨by positivity, ?_⟩
  have e1 : (Calculator.isqrt q.num.toNat : ℚ) * (Calculator.isqrt q.num.toNat : ℚ) =
      (q.num.toNat : ℚ) := by
    rw [← Nat.cast_mul, h1]
  have e2 : (Calculator.isqrt q.den : ℚ) * (Calculator.isqrt q.den : ℚ) = (q.den : ℚ) := by
    rw [← Nat.cast_mul, h2]
  have e3 : ((q.num.toNat : ℕ) : ℚ) = (q.num : ℚ) := by
    rw_mod_cast [Int.toNat_of_nonneg (Rat.num_nonneg.mpr hq)]
  calc (Calculator.isqrt q.num.toNat : ℚ) / (Calculator.isqrt q.den : ℚ) *
        ((Calculator.isqrt q.num.toNat : ℚ) / (Calculator.isqrt q.den : ℚ))
      = ((Calculator.isqrt q.num.toNat : ℚ) * (Calculator.isqrt q.num.toNat : ℚ)) /
        ((Calculator.isqrt q.den : ℚ) * (Calculator.isqrt q.den : ℚ)) := by ring
    _ = (q.num : ℚ) / (q.den : ℚ) := by rw [e1, e2, e3]
    _ = q := Rat.num_div_den q

/-- C3: `power(a, b)` never fails with the module's structured failure signal
(`ValueError`): for every pair of values it either returns a number or
propagates a host numeric domain error (the host `ZeroDivisionError` on a
zero base with negative exponent), exactly as the host defines `**`; in
particular `power(2, 3) = 8`. -/
theorem c3_power_never_structured_failure :
    (∀ (a b : PyVal) (m : String),
      Calculator.power a b ≠ Except.error (PyError.valueError m)) ∧
    Calculator.power (.int 2) (.int 3) = .ok (.int 8) := by
  constructor
  · intro a b m h
    cases hp : pyPow a b <;> simp [Calculator.power, hp] at h
  · rfl

/-- C3 witness: the no-`ValueError` property applied at a concrete input. -/
theorem c3_witness :
    Calculator.power (.int 2) (.int 3) ≠ Except.error (PyError.valueError "division by zero") :=
  c3_power_never_structured_failure.1 (.int 2) (.int 3) "division by zero"

/-- C4: `divide(a, b)` fails with the `DivisionByZero` failure
(`ValueError("division by zero")`) exactly when `b == 0`, and otherwise
returns `a / b` under true division — for float pairs and for int pairs
(whose true division already produces a float). -/
theorem c4_divide_spec :
    (∀ x y : ℚ,
      (Calculator.divide (.float x) (.float y) =
          Except.error (PyError.valueError "division by zero") ↔ y = 0) ∧
      (y ≠ 0 → Calculator.divide (.float x) (.float y) = .ok (.float (x / y)))) ∧
    (∀ m n : ℤ,
      (Calculator.divide (.int m) (.int n) =
          Except.error (PyError.valueError "division by zero") ↔ n = 0) ∧
      (n ≠ 0 → Calculator.divide (.int m) (.int n) = .ok (.float ((m : ℚ) / (n : ℚ))))) := by
  constructor
  · intro x y
    constructor
    · constructor
      · intro h
        by_contra hy
        simp [Calculator.divide, isZeroVal, hy] at h
      · intro h
        simp [Calculator.divide, isZeroVal, h]
    · intro hy
      simp [Calculator.divide, isZeroVal, hy, divVal]
  · intro m n
    constructor
    · constructor
      · intro h
        by_contra hn
        simp [Calculator.divide, isZeroVal, hn] at h
      · intro h
        simp [Calculator.divide, isZeroVal, h]
    · intro hn
      simp [Calculator.divide, isZeroVal, hn, divVal]

/-- C4 witness: both directions at concrete inputs, 1/0 fails and 7/2 = 3.5. -/
theorem c4_witness :
    Calculator.divide (.float 1) (.float 0) =
        Except.error (PyError.valueError "division by zero") ∧
    Calculator.divide (.int 7) (.int 2) = .ok (.float (((7 : ℤ) : ℚ) / ((2 : ℤ) : ℚ))) :=
  ⟨(c4_divide_spec.1 1 0).1.mpr rfl, (c4_divide_spec.2 7 2).2 (by decide)⟩

/-- C5: whenever `evaluate` succeeds its result is a float (the final
`float(result)` conversion), whatever the intermediate arithmetic; in
particular `7 // 2` gives `3.0`, `5 % 3` gives `2.0` and `2 ** 10` gives
`1024.0`. -/
theorem c5_float_result :
    (∀ (p : Except String Expr) (v : PyVal),
      Calculator.evaluate p = .ok v → isFloatVal v = true) ∧
    Calculator.evaluate (.ok exprSevenFloorTwo) = .ok (.float 3) ∧
    Calculator.evaluate (.ok exprFiveModThree) = .ok (.float 2) ∧
    Calculator.evaluate (.ok exprTwoPowTen) = .ok (.float 1024) := by
  refine ⟨?_, by decide, by decide, by decide⟩
  intro p v h
  cases p with
  | error s => simp [Calculator.evaluate] at h
  | ok tree =>
    simp only [Calculator.evaluate] at h
    cases hv : visit tree with
    | error e => rw [hv] at h; simp at h
    | ok w =>
      rw [hv] at h
      cases w <;> simp at h <;> exact h ▸ rfl

/-- C5 witness: the always-a-float property applied to the concrete run of
`7 // 2`. -/
theorem c5_witness : isFloatVal (.float 3) = true :=
  c5_float_result.1 (.ok exprSevenFloorTwo) (.float 3) c5_float_result.2.1

/-- C8: operands are evaluated left to right before the operator is applied:
a failure of the left operand is the result of the whole `BinOp` regardless
of the right operand and of the operator; a failure of the right operand is
the result whenever the left succeeded; and a `UnaryOp` propagates its
operand's failure unchanged regardless of the operator. -/
theorem c8_eval_order :
    (∀ (op : BinOpKind) (l r : Expr) (e : PyError),
      visit l = .error e → visit (.binOp op l r) = .error e) ∧
    (∀ (op : BinOpKind) (l r : Expr) (e : PyError) (lv : PyVal),
      visit l = .ok lv → visit r = .error e → visit (.binOp op l r) = .error e) ∧
    (∀ (op : UnaryOpKind) (x : Expr) (e : PyError),
      visit x = .error e → visit (.unaryOp op x) = .error e) := by
  refine ⟨?_, ?_, ?_⟩
  · intro op l r e h
    simp [visit, h]
  · intro op l r e lv hl hr
    simp [visit, hl, hr]
  · intro op x e h
    simp [visit, h]

/-- C8 witness: a failing left operand (`x + 1` with `x` a name) decides the
result even though the right operand is fine. -/
theorem c8_witness :
    visit (.binOp .add (.name "x") (.constant (.intC 1))) =
      .error (.valueError ("Unsupported expression element: " ++ "Name")) :=
  c8_eval_order.1 .add (.name "x") (.constant (.intC 1)) _ rfl

/-- C9: boolean literals pass `visit_Constant`'s
`isinstance(node.value, (int, float))` check because the host's `bool` is an
int subtype: a boolean constant evaluates to its numeric value, and
`evaluate("True + True")` returns `2.0` instead of failing. -/
theorem c9_bool_constants :
    (∀ b : Bool, visit (.constant (.boolC b)) = .ok (.int (if b then 1 else 0))) ∧
    Calculator.evaluate (.ok exprTruePlusTrue) = .ok (.float 2) := by
  exact ⟨fun b => rfl, by decide⟩

/-- C10: the `FloorDiv` and `Mod` branches have no zero guard: for every
number `a`, `a // 0` and `a % 0` fail with the host's raw `ZeroDivisionError`
— which is not the structured `ValueError` signal that carries the module's
failure kinds. -/
theorem c10_unguarded_floordiv_mod :
    (∀ a : ℤ,
      Calculator.evaluate
          (.ok (.binOp .floorDiv (.constant (.intC a)) (.constant (.intC 0)))) =
        .error (.hostError (.zeroDivisionError "integer division or modulo by zero")) ∧
      Calculator.evaluate
          (.ok (.binOp .mod (.constant (.intC a)) (.constant (.intC 0)))) =
        .error (.hostError (.zeroDivisionError "integer division or modulo by zero"))) ∧
    (∀ q : ℚ,
      Calculator.evaluate
          (.ok (.binOp .floorDiv (.constant (.floatC q)) (.constant (.floatC 0)))) =
        .error (.hostError (.zeroDivisionError "float floor division by zero")) ∧
      Calculator.evaluate
          (.ok (.binOp .mod (.constant (.floatC q)) (.constant (.floatC 0)))) =
        .error (.hostError (.zeroDivisionError "float modulo"))) ∧
    (∀ e : HostError, isValueError (.hostError e) = false) := by
  refine ⟨fun a => ⟨?_, ?_⟩, fun q => ⟨?_, ?_⟩, fun e => rfl⟩ <;>
    simp [Calculator.evaluate, visit, binOps, pyFloorDiv, pyMod, isZeroVal,
      floordivZeroMsg, modZeroMsg]

/-- Appending to a string strictly longer than `t` never yields `t`. -/
theorem append_ne_short (p s t : String) (h : t.length < p.length) : p ++ s ≠ t := by
  intro he
  have hl := congrArg String.length he
  rw [String.length_append] at hl
  omega

/-- C2 counterexample: at the input `"1/0"` the `Divide` branch of the
evaluator does not fail with the same failure that `divide` raises — the
visitor applies `operator.truediv`, whose `ZeroDivisionError` propagates
raw, while `Calculator.divide` raises the structured
`ValueError("division by zero")`. -/
theorem c2_counterexample :
    Calculator.evaluate (.ok exprOneDivZero) =
        .error (.hostError (.zeroDivisionError "division by zero")) ∧
    Calculator.divide (.int 1) (.int 0) =
        .error (.valueError "division by zero") ∧
    PyError.hostError (.zeroDivisionError "division by zero") ≠
        PyError.valueError "division by zero" :=
  ⟨by decide, by decide, by decide⟩

/-- C2 (amended): for all numbers `a`, `b` with `b ≠ 0`, evaluating the
expression `a / b` agrees exactly with `divide(a, b)` (both for float and for
int literals); when the right operand is exactly zero both fail, but the
`Divide` branch fails with the host's raw `ZeroDivisionError` while `divide`
raises the structured `ValueError` carrying the `DivisionByZero` kind — so
`evaluate("1/0")` fails with the host `ZeroDivisionError`, not with
`divide`'s failure. -/
theorem c2_divide_consistency :
    (∀ a b : ℚ, b ≠ 0 →
      Calculator.evaluate
          (.ok (.binOp .div (.constant (.floatC a)) (.constant (.floatC b)))) =
        .ok (.float (a / b)) ∧
      Calculator.divide (.float a) (.float b) = .ok (.float (a / b))) ∧
    (∀ m n : ℤ, n ≠ 0 →
      Calculator.evaluate
          (.ok (.binOp .div (.constant (.intC m)) (.constant (.intC n)))) =
        .ok (.float ((m : ℚ) / (n : ℚ))) ∧
      Calculator.divide (.int m) (.int n) = .ok (.float ((m : ℚ) / (n : ℚ)))) ∧
    Calculator.evaluate (.ok exprOneDivZero) =
        .error (.hostError (.zeroDivisionError "division by zero")) ∧
    Calculator.divide (.int 1) (.int 0) = .error (.valueError "division by zero") := by
  refine ⟨fun a b hb => ⟨?_, ?_⟩, fun m n hn => ⟨?_, ?_⟩, by decide, by decide⟩
  · simp [Calculator.evaluate, visit, binOps, pyDiv, isZeroVal, hb, divVal]
  · simp [Calculator.divide, isZeroVal, hb, divVal]
  · simp [Calculator.evaluate, visit, binOps, pyDiv, isZeroVal, hn, divVal]
  · simp [Calculator.divide, isZeroVal, hn, divVal]

/-- C2 witness: the agreement applied at `1 / 2`. -/
theorem c2_witness :
    Calculator.evaluate
        (.ok (.binOp .div (.constant (.floatC 1)) (.constant (.floatC 2)))) =
      .ok (.float (1 / 2)) ∧
    Calculator.divide (.float 1) (.float 2) = .ok (.float (1 / 2)) :=
  c2_divide_consistency.1 1 2 (by norm_num)

/-- C6: `sqrt(a)` fails with the `DomainError` failure
(`ValueError("square root of negative number")`) exactly when `a < 0`, and on
non-negative input returns the non-negative square root (exactly, whenever
the model tracks the value `math.sqrt` produces); `sqrt(9) = 3.0`. -/
theorem c6_sqrt_spec :
    (∀ q : ℚ,
      (Calculator.sqrt (.float q) =
          .error (.valueError "square root of negative number") ↔ q < 0) ∧
      (0 ≤ q → ∃ v, Calculator.sqrt (.float q) = .ok v ∧
        ∀ r, v = .float r → 0 ≤ r ∧ r * r = q)) ∧
    (∀ n : ℤ,
      (Calculator.sqrt (.int n) =
          .error (.valueError "square root of negative number") ↔ n < 0) ∧
      (0 ≤ n → ∃ v, Calculator.sqrt (.int n) = .ok v ∧
        ∀ r, v = .float r → 0 ≤ r ∧ r * r = (n : ℚ))) ∧
    Calculator.sqrt (.int 9) = .ok (.float 3) := by
  refine ⟨fun q => ⟨⟨?_, ?_⟩, ?_⟩, fun n => ⟨⟨?_, ?_⟩, ?_⟩, by decide⟩
  · intro h
    by_contra hq
    simp [Calculator.sqrt, Calculator.ltZero?, hq] at h
  · intro h
    simp [Calculator.sqrt, Calculator.ltZero?, h]
  · intro hq
    have hlt : ¬ q < 0 := not_lt.mpr hq
    cases hm : Calculator.ratSqrt? q with
    | none =>
      refine ⟨.floatX, ?_, ?_⟩
      · simp [Calculator.sqrt, Calculator.ltZero?, hlt, Calculator.mathSqrt, hm]
      · intro r hr
        exact absurd hr (by simp)
    | some r0 =>
      refine ⟨.float r0, ?_, ?_⟩
      · simp [Calculator.sqrt, Calculator.ltZero?, hlt, Calculator.mathSqrt, hm]
      · intro r hr
        have hs := ratSqrt_spec q hq r0 hm
        have : r0 = r := PyVal.float.inj hr
        exact this ▸ hs
  · intro h
    by_contra hn
    simp [Calculator.sqrt, Calculator.ltZero?, hn] at h
  · intro h
    simp [Calculator.sqrt, Calculator.ltZero?, h]
  · intro hn
    have hq : (0 : ℚ) ≤ (n : ℚ) := by exact_mod_cast hn
    have hlt : ¬ n < 0 := not_lt.mpr hn
    cases hm : Calculator.ratSqrt? ((n : ℤ) : ℚ) with
    | none =>
      refine ⟨.floatX, ?_, ?_⟩
      · simp [Calculator.sqrt, Calculator.ltZero?, hlt, Calculator.mathSqrt, hm]
      · intro r hr
        exact absurd hr (by simp)
    | some r0 =>
      refine ⟨.float r0, ?_, ?_⟩
      · simp [Calculator.sqrt, Calculator.ltZero?, hlt, Calculator.mathSqrt, hm]
      · intro r hr
        have hs := ratSqrt_spec ((n : ℤ) : ℚ) hq r0 hm
        have : r0 = r := PyVal.float.inj hr
        exact this ▸ hs

/-- C6 witness: `sqrt(-1)` fails with the domain failure and `sqrt(4.0)`
returns the non-negative root. -/
theorem c6_witness :
    Calculator.sqrt (.float (-1)) =
        .error (.valueError "square root of negative number") ∧
    ∃ v, Calculator.sqrt (.float 4) = .ok v ∧
      ∀ r, v = .float r → 0 ≤ r ∧ r * r = 4 :=
  ⟨((c6_sqrt_spec.1 (-1)).1).mpr (by norm_num), (c6_sqrt_spec.1 4).2 (by norm_num)⟩

/-- C7: whenever parsing fails (`ast.parse` raises `SyntaxError`), `evaluate`
fails with the syntax-failure kind, `ValueError("invalid expression")`, and
no successfully parsed tree can ever produce that failure — so the kind is
distinguishable from `UnsupportedExpressionError` (and from every other
evaluation failure). -/
theorem c7_invalid_input :
    (∀ s : String,
      Calculator.evaluate (.error s) = .error (.valueError "invalid expression")) ∧
    (∀ t : Expr,
      Calculator.evaluate (.ok t) ≠ .error (.valueError "invalid expression")) := by
  constructor
  · intro s
    rfl
  · intro t h
    simp only [Calculator.evaluate] at h
    cases hv : visit t with
    | error e =>
      rw [hv] at h
      simp at h
      subst h
      rcases visit_error_shape t _ hv with ⟨he, hhe⟩ | hmsg | ⟨s, hs⟩ | ⟨s, hs⟩ | ⟨s, hs⟩
      · exact PyError.noConfusion hhe
      · exact absurd hmsg (by decide)
      · exact absurd (PyError.valueError.inj hs).symm
          (append_ne_short _ _ _ (by decide))
      · exact absurd (PyError.valueError.inj hs).symm
          (append_ne_short _ _ _ (by decide))
      · exact absurd (PyError.valueError.inj hs).symm
          (append_ne_short _ _ _ (by decide))
    | ok w =>
      rw [hv] at h
      cases w with
      | int n => simp at h
      | float q => simp at h
      | floatX => simp at h
      | complex => exact absurd h (by decide)

/-- C7 witness: a parse failure is reported as the invalid-expression kind,
while a parsed literal does not produce it. -/
theorem c7_witness :
    Calculator.evaluate (.error "unbalanced (") =
        .error (.valueError "invalid expression") ∧
    Calculator.evaluate (.ok (.constant (.intC 1))) ≠
        .error (.valueError "invalid expression") :=
  ⟨c7_invalid_input.1 "unbalanced (", c7_invalid_input.2 (.constant (.intC 1))⟩

/-- C1 counterexample: the input `"1/0 + x"` parses to a tree that contains a
disallowed construct (the name reference `x`), yet `evaluate` fails neither
with `UnsupportedExpressionError` nor with `SyntaxError` — both of which are
structured `ValueError` failures — but with the host's raw
`ZeroDivisionError`, because the left operand `1/0` is evaluated before the
disallowed node is reached. -/
theorem c1_counterexample :
    containsDisallowed exprDivZeroPlusName = true ∧
    Calculator.evaluate (.ok exprDivZeroPlusName) =
        .error (.hostError (.zeroDivisionError "division by zero")) ∧
    isValueError (.hostError (.zeroDivisionError "division by zero")) = false :=
  ⟨rfl, by decide, rfl⟩

/-- C1 (amended): for every parse tree containing a disallowed construct
(name reference, function call, attribute access, string literal, boolean or
comparison operator, collection literal), `evaluate` never returns a result —
it fails, and the failure is of the `UnsupportedExpressionError` kind unless
a host error raised by an operand evaluated before the disallowed construct
preempts it; an input that fails to parse always fails with the
`SyntaxError` kind; and `evaluate("__import__('os').system('echo no')")`
fails with `UnsupportedExpressionError` naming the `Call` node, executing
nothing. -/
theorem c1_disallowed_rejected :
    (∀ t : Expr, containsDisallowed t = true →
      ∃ e : PyError, Calculator.evaluate (.ok t) = .error e ∧
        (UnsupportedExprKind e ∨ ∃ h, e = .hostError h)) ∧
    (∀ s : String,
      Calculator.evaluate (.error s) = .error (.valueError "invalid expression")) ∧
    Calculator.evaluate (.ok exprImportAttack) =
        .error (.valueError "Unsupported expression element: Call") := by
  refine ⟨?_, fun s => rfl, by decide⟩
  intro t hd
  cases hv : visit t with
  | ok w =>
    have hok := visit_ok_not_disallowed t w hv
    rw [hd] at hok
    exact Bool.noConfusion hok
  | error e =>
    refine ⟨e, by simp [Calculator.evaluate, hv], ?_⟩
    rcases visit_error_shape t e hv with hhost | hmsg | hel | hop | hun
    · exact Or.inr hhost
    · exact Or.inl (Or.inl hmsg)
    · exact Or.inl (Or.inr (Or.inl hel))
    · exact Or.inl (Or.inr (Or.inr (Or.inl hop)))
    · exact Or.inl (Or.inr (Or.inr (Or.inr hun)))

/-- C1 witness: the rejection property applied to the concrete injection
attempt, which fails with an `UnsupportedExpressionError`-kind error. -/
theorem c1_witness :
    ∃ e : PyError, Calculator.evaluate (.ok exprImportAttack) = .error e ∧
      (UnsupportedExprKind e ∨ ∃ h, e = .hostError h) :=
  c1_disallowed_rejected.1 exprImportAttack rfl

end Calc
